import Mathlib

/-!
Verification of the gmail-assistant-mcp repository: a shallow embedding of
the mailbox client (`gmail_client.py`), the document text flattener
(`google_docs_helper.py`), the prompt composers (`helpers/prompt_builder.py`
and the inline copy in `server.py`), and the draft-all-to-me workflow
handler (`tools/get_unread_and_draft_replies.py`), together with theorems
settling the behavioral claims about them.

External effects (the IMAP search/fetch calls, the Anthropic generation
call, the SMTP/IMAP draft persist) are modelled as oracle inputs: the
search result is passed in as a status string plus an id list, a per-id
fetch is a function to `Option RawEmail` (`none` models a non-OK fetch
status or a parse exception, both of which the source skips), and the
generation/persist calls are functions returning `Except`.
-/

/-- Embedding of Python's `needle in hay` on strings: code-point substring
containment. -/
def pyIn (needle hay : String) : Bool := decide (needle.data <:+: hay.data)

/-- Embedding of Python's `s.lower()`: lower-case each code point. -/
def pyLower (s : String) : String := String.mk (s.data.map Char.toLower)

/-- Embedding of Python's `s[:n]` on strings: the first `n` code points. -/
def pyTake (s : String) (n : Nat) : String := String.mk (s.data.take n)

/-- Embedding of Python's `s.startswith(p)`. -/
def pyStartsWith (s p : String) : Bool := decide (p.data <+: s.data)

/-- Embedding of Python's `xs[start:]` list slicing, including the clamping
rules for negative and out-of-range start indices. -/
def pyTail {α : Type} (xs : List α) (start : Int) : List α :=
  let len : Int := xs.length
  let i : Int := if start < 0 then max (len + start) 0 else min start len
  xs.drop i.toNat

/-- The raw header/body data extracted from one fetched and successfully
parsed message, before the `email_data` record is built
(`gmail_client.py` lines 60-79): decoded subject, raw `From`/`Date`
headers, the `To`/`Cc` fields already normalized to strings, and the
extracted plain-text body (empty when no plain-text part exists). -/
structure RawEmail where
  id : String
  from_addr : String
  subject : String
  date : String
  to_field : String
  cc_field : String
  body : String
deriving DecidableEq

/-- The `email_data` dict built per message in
`GmailClient.get_unread_emails` (`gmail_client.py` lines 81-89). -/
structure MailMessage where
  id : String
  from_addr : String
  subject : String
  date : String
  to_field : String
  cc_field : String
  body : String
deriving DecidableEq

/-- `email_data` construction: all fields copied, the body stored as
`body[:2000] if body else ""` (`gmail_client.py` line 88). -/
def mkMailMessage (r : RawEmail) : MailMessage :=
  { id := r.id, from_addr := r.from_addr, subject := r.subject,
    date := r.date, to_field := r.to_field, cc_field := r.cc_field,
    body := if r.body = "" then "" else pyTake r.body 2000 }

/-- The two classification buckets of `get_unread_emails`. -/
inductive Bucket where
  | to_me : Bucket
  | cc_me : Bucket
deriving DecidableEq

/-- The classification branch of `get_unread_emails`
(`gmail_client.py` lines 91-98): case-insensitive substring test of the
account owner's address against `to`, then against `cc`, defaulting to
`to_me`. -/
def classifyEmail (owner to_field cc_field : String) : Bucket :=
  if pyIn (pyLower owner) (pyLower to_field) then Bucket.to_me
  else if pyIn (pyLower owner) (pyLower cc_field) then Bucket.cc_me
  else Bucket.to_me

/-- The `{"to_me": ..., "cc_me": ...}` result dict of
`get_unread_emails`. -/
structure Buckets where
  to_me : List MailMessage
  cc_me : List MailMessage
deriving DecidableEq

/-- The per-id loop of `get_unread_emails` (`gmail_client.py` lines
48-102): each list entry is the outcome of fetching and parsing one id
(`none` when the fetch status is non-OK or parsing raised, which the
source skips with `continue`); each parsed message is appended to the
bucket chosen by `classifyEmail`, in order. -/
def processEmails (owner : String) : List (Option RawEmail) → Buckets
  | [] => ⟨[], []⟩
  | none :: rest => processEmails owner rest
  | some r :: rest =>
    let b := processEmails owner rest
    match classifyEmail owner r.to_field r.cc_field with
    | Bucket.to_me => ⟨mkMailMessage r :: b.to_me, b.cc_me⟩
    | Bucket.cc_me => ⟨b.to_me, mkMailMessage r :: b.cc_me⟩

/-- `GmailClient.get_unread_emails` (`gmail_client.py` lines 28-102) with
the IMAP interaction abstracted: `searchStatus` and `searchIds` are the
outcome of `imap.search(None, "UNSEEN")`, and `fetch` is the per-id
fetch-and-parse step. A non-OK search status returns two empty buckets;
otherwise the last `maxResults` ids (Python slice `[-max_results:]`) are
fetched, parsed and classified. -/
def get_unread_emails (owner : String) (maxResults : Int)
    (searchStatus : String) (searchIds : List String)
    (fetch : String → Option RawEmail) : Buckets :=
  if searchStatus ≠ "OK" then ⟨[], []⟩
  else processEmails owner ((pyTail searchIds (-maxResults)).map fetch)

/-- The subject line composed by `GmailClient.create_draft_reply`
(`gmail_client.py` line 135): `f"Re: {subject}" if not
subject.startswith("Re:") else subject`. -/
def replySubject (subject : String) : String :=
  if ¬ (pyStartsWith subject "Re:") then "Re: " ++ subject else subject

/-- Parsed messages in the input fetch-outcome list, in order. -/
def parsedEmails (fetched : List (Option RawEmail)) : List RawEmail :=
  fetched.filterMap id

/-- `C1`: every parsed message of `get_unread_emails` lands in exactly one
bucket: the `to_me` bucket is exactly the parsed messages classified
`to_me` and the `cc_me` bucket exactly those classified `cc_me`, in order,
so nothing is dropped or duplicated; and the classifier sends a to-match
to `to_me` regardless of `cc` (to-match priority), a cc-only match to
`cc_me`, and a message matching neither to `to_me` (the default). -/
theorem get_unread_partition (owner : String)
    (fetched : List (Option RawEmail)) :
    (processEmails owner fetched).to_me
      = ((parsedEmails fetched).filter
          (fun r => classifyEmail owner r.to_field r.cc_field
            = Bucket.to_me)).map mkMailMessage
  ∧ (processEmails owner fetched).cc_me
      = ((parsedEmails fetched).filter
          (fun r => classifyEmail owner r.to_field r.cc_field
            = Bucket.cc_me)).map mkMailMessage
  ∧ (∀ t c, pyIn (pyLower owner) (pyLower t) = true →
        classifyEmail owner t c = Bucket.to_me)
  ∧ (∀ t c, pyIn (pyLower owner) (pyLower t) = false →
        pyIn (pyLower owner) (pyLower c) = true →
        classifyEmail owner t c = Bucket.cc_me)
  ∧ (∀ t c, pyIn (pyLower owner) (pyLower t) = false →
        pyIn (pyLower owner) (pyLower c) = false →
        classifyEmail owner t c = Bucket.to_me) := by
  refine ⟨?_, ?_, ?_, ?_, ?_⟩
  · induction fetched with
    | nil => rfl
    | cons hd tl ih =>
      cases hd with
      | none => simpa [processEmails, parsedEmails] using ih
      | some r =>
        simp only [processEmails, parsedEmails, List.filterMap_cons,
          id, List.filter_cons]
        rcases hcl : classifyEmail owner r.to_field r.cc_field with _ | _ <;>
          simp [hcl, parsedEmails] at ih ⊢ <;> exact ih
  · induction fetched with
    | nil => rfl
    | cons hd tl ih =>
      cases hd with
      | none => simpa [processEmails, parsedEmails] using ih
      | some r =>
        simp only [processEmails, parsedEmails, List.filterMap_cons,
          id, List.filter_cons]
        rcases hcl : classifyEmail owner r.to_field r.cc_field with _ | _ <;>
          simp [hcl, parsedEmails] at ih ⊢ <;> exact ih
  · intro t c ht
    simp [classifyEmail, ht]
  · intro t c ht hc
    simp [classifyEmail, ht, hc]
  · intro t c ht hc
    simp [classifyEmail, ht, hc]

/-- Witness for `C1` at concrete inputs: to-match priority, cc-only match,
and the neither-match default, for owner address `me@x.com`. -/
theorem get_unread_partition_witness :
    classifyEmail "me@x.com" "me@x.com" "team@x.com" = Bucket.to_me
  ∧ classifyEmail "me@x.com" "team@x.com" "me@x.com" = Bucket.cc_me
  ∧ classifyEmail "me@x.com" "other@x.com" "" = Bucket.to_me :=
  ⟨(get_unread_partition "me@x.com" []).2.2.1 "me@x.com" "team@x.com"
      (by decide),
   (get_unread_partition "me@x.com" []).2.2.2.1 "team@x.com" "me@x.com"
      (by decide) (by decide),
   (get_unread_partition "me@x.com" []).2.2.2.2 "other@x.com" ""
      (by decide) (by decide)⟩

/-- `C4`: when the UNSEEN search returns a non-OK status,
`get_unread_emails` returns two empty buckets instead of raising
(`gmail_client.py` lines 39-40). -/
theorem get_unread_search_failure (owner : String) (maxResults : Int)
    (status : String) (ids : List String)
    (fetch : String → Option RawEmail) (h : status ≠ "OK") :
    get_unread_emails owner maxResults status ids fetch
      = ⟨[], []⟩ := by
  simp [get_unread_emails, h]

/-- A sample fetch-and-parse oracle used to instantiate theorems: every id
parses to a message addressed directly to `me@x.com`. -/
def sampleFetch : String → Option RawEmail := fun i =>
  some ⟨i, "a@x.com", "subj", "date", "me@x.com", "", "hello"⟩

/-- Witness for `C4`: a concrete non-OK search status yields empty
buckets. -/
theorem get_unread_search_failure_witness :
    get_unread_emails "me@x.com" 10 "NO" ["1", "2"] sampleFetch
      = ⟨[], []⟩ :=
  get_unread_search_failure "me@x.com" 10 "NO" ["1", "2"] sampleFetch
    (by decide)

/-- The "latest N" id selection of `get_unread_emails`
(`gmail_client.py` line 43): the Python slice `email_ids[-max_results:]`. -/
def selectLatest (maxResults : Int) (ids : List String) : List String :=
  pyTail ids (-maxResults)

/-- The buckets hold at most as many messages as there are fetch
outcomes. -/
theorem processEmails_length_le (owner : String)
    (fetched : List (Option RawEmail)) :
    (processEmails owner fetched).to_me.length
      + (processEmails owner fetched).cc_me.length ≤ fetched.length := by
  induction fetched with
  | nil => simp [processEmails]
  | cons hd tl ih =>
    cases hd with
    | none =>
      simp only [processEmails, List.length_cons]
      omega
    | some r =>
      simp only [processEmails, List.length_cons]
      rcases classifyEmail owner r.to_field r.cc_field <;> simp <;> omega

/-- `C2` counterexample: at `max_results = 0` the Python slice
`email_ids[-0:]` is the whole id list, so with two unseen ids the two
buckets together hold 2 messages, exceeding `max_results = 0`. -/
theorem get_unread_max_results_counterexample :
    ¬ ((get_unread_emails "me@x.com" 0 "OK" ["1", "2"] sampleFetch).to_me.length
        + (get_unread_emails "me@x.com" 0 "OK" ["1", "2"] sampleFetch).cc_me.length
        ≤ (0 : Int).toNat) := by
  decide

/-- `C2` (amended to `max_results ≥ 1`): the selection is the
`min max_results len` highest-indexed ids of the search result, kept in
protocol-native order (a suffix of the id list), and the total number of
messages across the two buckets never exceeds `max_results`. -/
theorem get_unread_max_results (owner : String) (m : Int) (hm : 1 ≤ m)
    (status : String) (ids : List String)
    (fetch : String → Option RawEmail) :
    selectLatest m ids = ids.drop (ids.length - m.toNat)
  ∧ (selectLatest m ids).length = min ids.length m.toNat
  ∧ (get_unread_emails owner m status ids fetch).to_me.length
      + (get_unread_emails owner m status ids fetch).cc_me.length
      ≤ m.toNat := by
  have hsel : selectLatest m ids = ids.drop (ids.length - m.toNat) := by
    simp only [selectLatest, pyTail]
    have hneg : (-m) < 0 := by omega
    rw [if_pos hneg]
    congr 1
    omega
  have hlen : (selectLatest m ids).length = min ids.length m.toNat := by
    rw [hsel, List.length_drop]
    omega
  refine ⟨hsel, hlen, ?_⟩
  unfold get_unread_emails
  by_cases hst : status ≠ "OK"
  · simp [hst]
  · rw [if_neg hst]
    have hb := processEmails_length_le owner
      ((pyTail ids (-m)).map fetch)
    rw [List.length_map] at hb
    have : (pyTail ids (-m)).length = (selectLatest m ids).length := rfl
    omega

/-- Witness for `C2` (amended) at `max_results = 2` over three unseen
ids. -/
theorem get_unread_max_results_witness :
    selectLatest 2 ["1", "2", "3"]
        = ["1", "2", "3"].drop (["1", "2", "3"].length - (2 : Int).toNat)
  ∧ (selectLatest 2 ["1", "2", "3"]).length
        = min (["1", "2", "3"] : List String).length (2 : Int).toNat
  ∧ (get_unread_emails "me@x.com" 2 "OK" ["1", "2", "3"] sampleFetch).to_me.length
      + (get_unread_emails "me@x.com" 2 "OK" ["1", "2", "3"] sampleFetch).cc_me.length
      ≤ (2 : Int).toNat :=
  get_unread_max_results "me@x.com" 2 (by decide) "OK" ["1", "2", "3"]
    sampleFetch

/-- `C5`: the stored body of a `MailMessage` is the extracted body
truncated to its first 2000 code points: its length is the minimum of the
source length and 2000, a body no longer than 2000 is stored unmodified,
and an empty (missing) body is stored as the empty string. -/
theorem mailMessage_body_truncation (r : RawEmail) :
    (mkMailMessage r).body = pyTake r.body 2000
  ∧ (mkMailMessage r).body.length = min r.body.length 2000
  ∧ (r.body.length ≤ 2000 → (mkMailMessage r).body = r.body)
  ∧ (r.body = "" → (mkMailMessage r).body = "") := by
  have hbody : (mkMailMessage r).body = pyTake r.body 2000 := by
    simp only [mkMailMessage]
    by_cases h : r.body = ""
    · simp [h, pyTake]
    · simp [h]
  have htake : ∀ s : String, (pyTake s 2000).length = min s.length 2000 := by
    intro s
    simp only [pyTake, String.length, List.length_take]
    omega
  refine ⟨hbody, by rw [hbody, htake], ?_, ?_⟩
  · intro hle
    rw [hbody]
    simp only [pyTake]
    rw [List.take_of_length_le hle]
  · intro h0
    simp [hbody, h0, pyTake]

/-- Witness for `C5`: a 5-character body is stored unmodified, and an
empty body stays empty. -/
theorem mailMessage_body_truncation_witness :
    (mkMailMessage ⟨"1", "a@x.com", "s", "d", "me@x.com", "", "hello"⟩).body
        = "hello"
  ∧ (mkMailMessage ⟨"1", "a@x.com", "s", "d", "me@x.com", "", ""⟩).body
        = "" :=
  ⟨(mailMessage_body_truncation
      ⟨"1", "a@x.com", "s", "d", "me@x.com", "", "hello"⟩).2.2.1 (by decide),
   (mailMessage_body_truncation
      ⟨"1", "a@x.com", "s", "d", "me@x.com", "", ""⟩).2.2.2 rfl⟩

/-- A string beginning with `"Re: "` starts with `"Re:"`. -/
theorem pyStartsWith_re (s : String) :
    pyStartsWith ("Re: " ++ s) "Re:" = true := by
  simp only [pyStartsWith, String.data_append, decide_eq_true_eq]
  exact List.IsPrefix.trans (by decide) (List.prefix_append _ _)

/-- `C6`: the reply subject is `"Re: "` prepended to the subject when the
subject does not already start with `"Re:"`, is the subject unchanged when
it does, and the transformation is idempotent (no double-prefixing). -/
theorem replySubject_spec (subject : String) :
    (pyStartsWith subject "Re:" = false →
        replySubject subject = "Re: " ++ subject)
  ∧ (pyStartsWith subject "Re:" = true → replySubject subject = subject)
  ∧ replySubject (replySubject subject) = replySubject subject := by
  refine ⟨?_, ?_, ?_⟩
  · intro h
    simp [replySubject, h]
  · intro h
    simp [replySubject, h]
  · by_cases h : pyStartsWith subject "Re:" = true
    · simp [replySubject, h]
    · simp only [Bool.not_eq_true] at h
      simp [replySubject, h, pyStartsWith_re]

/-- Witness for `C6`: `"Hello"` becomes `"Re: Hello"`, `"Re: Hello"` is
unchanged, and a second application changes nothing. -/
theorem replySubject_spec_witness :
    replySubject "Hello" = "Re: Hello"
  ∧ replySubject "Re: Hello" = "Re: Hello"
  ∧ replySubject (replySubject "Hello") = replySubject "Hello" :=
  ⟨by rw [(replySubject_spec "Hello").1 (by decide)]; decide,
   (replySubject_spec "Re: Hello").2.1 (by decide),
   (replySubject_spec "Hello").2.2⟩

/-- The opening segment shared by both prompt composers: the instruction
line, the quoted sender, subject, and original message body. -/
def promptIntro (sender subject email_content : String) : String :=
  "Generate a professional and helpful email reply to the following email:\n\nFrom: "
    ++ sender ++ "\nSubject: " ++ subject ++ "\n\nEmail content:\n"
    ++ email_content ++ "\n\n"

/-- The guidelines directive segment appended by both composers when the
guidelines text is non-empty. -/
def guidelinesDirective (guidelines : String) : String :=
  "\nIMPORTANT: Follow these email writing guidelines:\n\n"
    ++ guidelines ++ "\n\n"

/-- The closing instructions of `build_reply_prompt` in
`helpers/prompt_builder.py` (lines 41-44). -/
def helperClosing : String :=
  "\nPlease write a thoughtful, professional reply. Keep it concise and focused - aim for 2-3 short paragraphs maximum. Be warm but efficient. Only provide the email body text, no subject line or signatures.\n\nIMPORTANT: Keep your response under 200 words. Get straight to the point."

/-- The closing instructions of the inline `build_reply_prompt` in
`server.py` (lines 96-97). -/
def serverClosing : String :=
  "\nPlease write a thoughtful, professional reply. Be concise but warm. Aim to reply in 3-4 short paragraphs maximum. Only provide the email body text, no subject line or signatures."

namespace PromptBuilder

/-- `build_reply_prompt` from `helpers/prompt_builder.py` (lines 21-46):
intro with interpolated sender/subject/content, the guidelines directive
appended only when `guidelines` is truthy (non-empty), then the closing
instructions. -/
def build_reply_prompt
    (sender subject email_content guidelines : String) : String :=
  let prompt :=
    "Generate a professional and helpful email reply to the following email:\n\nFrom: "
      ++ sender ++ "\nSubject: " ++ subject ++ "\n\nEmail content:\n"
      ++ email_content ++ "\n\n"
  let prompt :=
    if guidelines ≠ "" then
      prompt ++ ("\nIMPORTANT: Follow these email writing guidelines:\n\n"
        ++ guidelines ++ "\n\n")
    else prompt
  prompt
    ++ "\nPlease write a thoughtful, professional reply. Keep it concise and focused - aim for 2-3 short paragraphs maximum. Be warm but efficient. Only provide the email body text, no subject line or signatures.\n\nIMPORTANT: Keep your response under 200 words. Get straight to the point."

end PromptBuilder

namespace ServerMod

/-- The inline `build_reply_prompt` from `server.py` (lines 77-99): same
intro and guidelines handling as the helper version, but with its own
closing instructions. -/
def build_reply_prompt
    (sender subject email_content guidelines : String) : String :=
  let prompt :=
    "Generate a professional and helpful email reply to the following email:\n\nFrom: "
      ++ sender ++ "\nSubject: " ++ subject ++ "\n\nEmail content:\n"
      ++ email_content ++ "\n\n"
  let prompt :=
    if guidelines ≠ "" then
      prompt ++ ("\nIMPORTANT: Follow these email writing guidelines:\n\n"
        ++ guidelines ++ "\n\n")
    else prompt
  prompt
    ++ "\nPlease write a thoughtful, professional reply. Be concise but warm. Aim to reply in 3-4 short paragraphs maximum. Only provide the email body text, no subject line or signatures."

end ServerMod

/-- `C9`: the helper prompt composer is total, and its output is the
intro segment, then the guidelines directive exactly when the guidelines
text is non-empty, then the closing instructions — so the directive sits
between the quoted original message and the closing instructions. -/
theorem build_reply_prompt_spec (s subj c g : String) :
    (g ≠ "" → PromptBuilder.build_reply_prompt s subj c g
        = promptIntro s subj c ++ guidelinesDirective g ++ helperClosing)
  ∧ (g = "" → PromptBuilder.build_reply_prompt s subj c g
        = promptIntro s subj c ++ helperClosing) := by
  constructor
  · intro h
    simp [PromptBuilder.build_reply_prompt, promptIntro, guidelinesDirective,
      helperClosing, h, String.append_assoc]
  · intro h
    simp [PromptBuilder.build_reply_prompt, promptIntro, helperClosing, h]

/-- Witness for `C9`: concrete non-empty and empty guidelines inputs. -/
theorem build_reply_prompt_spec_witness :
    PromptBuilder.build_reply_prompt "a@x.com" "Hi" "text" "Be brief"
        = promptIntro "a@x.com" "Hi" "text"
            ++ guidelinesDirective "Be brief" ++ helperClosing
  ∧ PromptBuilder.build_reply_prompt "a@x.com" "Hi" "text" ""
        = promptIntro "a@x.com" "Hi" "text" ++ helperClosing :=
  ⟨(build_reply_prompt_spec "a@x.com" "Hi" "text" "Be brief").1 (by decide),
   (build_reply_prompt_spec "a@x.com" "Hi" "text" "").2 rfl⟩

set_option maxRecDepth 10000 in
/-- `C10` counterexample: the two prompt composers disagree already on
empty guidelines — their closing instructions differ. -/
theorem build_reply_prompt_agreement_counterexample :
    ¬ (ServerMod.build_reply_prompt "a@x.com" "Hi" "text" ""
        = PromptBuilder.build_reply_prompt "a@x.com" "Hi" "text" "") := by
  decide

/-- `C10` (amended): the two composers agree on everything before the
closing instructions — both are the shared intro plus the optional shared
guidelines directive — and differ exactly in their distinct closing
instruction texts. -/
theorem build_reply_prompt_agreement (s subj c g : String) :
    ServerMod.build_reply_prompt s subj c g
      = promptIntro s subj c
          ++ (if g = "" then "" else guidelinesDirective g) ++ serverClosing
  ∧ PromptBuilder.build_reply_prompt s subj c g
      = promptIntro s subj c
          ++ (if g = "" then "" else guidelinesDirective g) ++ helperClosing
  ∧ serverClosing ≠ helperClosing := by
  refine ⟨?_, ?_, by decide⟩
  · by_cases h : g = ""
    · simp [ServerMod.build_reply_prompt, promptIntro, serverClosing, h]
    · simp [ServerMod.build_reply_prompt, promptIntro, guidelinesDirective,
        serverClosing, h, String.append_assoc]
  · by_cases h : g = ""
    · simp [PromptBuilder.build_reply_prompt, promptIntro, helperClosing, h]
    · simp [PromptBuilder.build_reply_prompt, promptIntro,
        guidelinesDirective, helperClosing, h, String.append_assoc]

/-- Witness for `C10` (amended) at a concrete input. -/
theorem build_reply_prompt_agreement_witness :
    ServerMod.build_reply_prompt "a@x.com" "Hi" "text" "G"
      = promptIntro "a@x.com" "Hi" "text"
          ++ (if ("G" : String) = "" then "" else guidelinesDirective "G")
          ++ serverClosing
  ∧ PromptBuilder.build_reply_prompt "a@x.com" "Hi" "text" "G"
      = promptIntro "a@x.com" "Hi" "text"
          ++ (if ("G" : String) = "" then "" else guidelinesDirective "G")
          ++ helperClosing
  ∧ serverClosing ≠ helperClosing :=
  build_reply_prompt_agreement "a@x.com" "Hi" "text" "G"

/-- A per-message status entry appended to `results` in the
draft-all-to-me handler (`tools/get_unread_and_draft_replies.py` lines
83-96): sender, subject, a status string, and a preview present only on
success. -/
structure ResultEntry where
  from_addr : String
  subject : String
  status : String
  preview : Option String
deriving DecidableEq

/-- The success status string of the handler (line 86). -/
def okStatusText : String := "✅ Draft created"

/-- The failure status string of the handler (line 95): the error text
appended to the failure marker. -/
def failStatusText (e : String) : String := "❌ Failed: " ++ e

/-- Whether a status entry records a success. -/
def isOkEntry (e : ResultEntry) : Bool := e.status = okStatusText

/-- The outcomes of the two external calls made for each `to_me` message:
the reply-generation call (given the call index and the built prompt) and
the draft-persist call (given the call index, recipient, subject and
generated body). -/
structure StepOracle where
  gen : Nat → String → Except String String
  persist : Nat → String → String → String → Except String Unit

/-- The result of one handler invocation
(`tools/get_unread_and_draft_replies.py` lines 42-114): either the
"nothing to do" short-circuit text or a summary holding the per-message
status entries and the count of skipped `cc_me` messages. -/
inductive HandlerOutput where
  | noneToDo (text : String) : HandlerOutput
  | summary (entries : List ResultEntry) (skippedCc : Nat) : HandlerOutput
deriving DecidableEq

/-- The short-circuit text of the handler (line 46). -/
def noDraftsText : String := "📭 No unread emails sent directly to you!"

/-- The body of the handler's per-message `try` block
(`tools/get_unread_and_draft_replies.py` lines 56-96), instrumented with
the number of reply-generation and draft-persist calls it performs: build
the prompt, generate a reply (one generation call; on failure append a
failure entry), persist the draft (one persist call; on failure append a
failure entry), else append a success entry with a 100-character
preview. -/
def processItem (o : StepOracle) (guidelines : String) (i : Nat)
    (m : MailMessage) : ResultEntry × Nat × Nat :=
  let prompt :=
    PromptBuilder.build_reply_prompt m.from_addr m.subject m.body guidelines
  match o.gen i prompt with
  | Except.error e =>
    (⟨m.from_addr, m.subject, failStatusText e, none⟩, 1, 0)
  | Except.ok reply =>
    match o.persist i m.from_addr m.subject reply with
    | Except.error e =>
      (⟨m.from_addr, m.subject, failStatusText e, none⟩, 1, 1)
    | Except.ok _ =>
      (⟨m.from_addr, m.subject, okStatusText,
          some (pyTake reply 100 ++ "...")⟩, 1, 1)

/-- Whether the `i`-th message's generation-or-persist step fails. -/
def stepFails (o : StepOracle) (guidelines : String) (i : Nat)
    (m : MailMessage) : Bool :=
  let prompt :=
    PromptBuilder.build_reply_prompt m.from_addr m.subject m.body guidelines
  match o.gen i prompt with
  | Except.error _ => true
  | Except.ok reply =>
    match o.persist i m.from_addr m.subject reply with
    | Except.error _ => true
    | Except.ok _ => false

/-- The draft-all-to-me handler `handle`
(`tools/get_unread_and_draft_replies.py` lines 27-114) after the
`get_unread_emails` fetch, with the generation and persist calls
abstracted into `o`: short-circuit when the `to_me` bucket is empty, else
process every `to_me` message in order and return the summary along with
the total number of generation and persist calls performed. -/
def handle_draft_all (o : StepOracle) (guidelines : String)
    (emails : Buckets) : HandlerOutput × Nat × Nat :=
  if emails.to_me = [] then (HandlerOutput.noneToDo noDraftsText, 0, 0)
  else
    let items := emails.to_me.enum.map
      (fun p => processItem o guidelines p.1 p.2)
    (HandlerOutput.summary (items.map (fun x => x.1)) emails.cc_me.length,
     (items.map (fun x => x.2.1)).sum,
     (items.map (fun x => x.2.2)).sum)

/-- A failure status never equals the success status (their first
characters differ). -/
theorem failStatusText_ne_ok (e : String) :
    failStatusText e ≠ okStatusText := by
  intro h
  have h2 : (failStatusText e).data = okStatusText.data :=
    congrArg String.data h
  rw [failStatusText, String.data_append] at h2
  simp [okStatusText] at h2

/-- An entry records success exactly when its step did not fail. -/
theorem isOkEntry_processItem (o : StepOracle) (g : String) (i : Nat)
    (m : MailMessage) :
    isOkEntry (processItem o g i m).1 = ! stepFails o g i m := by
  simp only [processItem, stepFails]
  cases hg : o.gen i (PromptBuilder.build_reply_prompt m.from_addr m.subject
      m.body g) with
  | error e => simp [isOkEntry, failStatusText_ne_ok e]
  | ok reply =>
    cases hp : o.persist i m.from_addr m.subject reply with
    | error e => simp [hp, isOkEntry, failStatusText_ne_ok e]
    | ok u => simp [hp, isOkEntry]

/-- `C8`: when the fetched `to_me` bucket is empty the handler returns the
"nothing to do" text immediately and performs zero reply-generation and
zero draft-persist calls, regardless of the `cc_me` bucket. -/
theorem handle_draft_all_empty (o : StepOracle) (guidelines : String)
    (emails : Buckets) (h : emails.to_me = []) :
    handle_draft_all o guidelines emails
      = (HandlerOutput.noneToDo noDraftsText, 0, 0) := by
  simp [handle_draft_all, h]

/-- A concrete `to_me` message used to instantiate handler theorems. -/
def sampleMsg (n : String) : MailMessage :=
  ⟨n, "a@x.com", "subj", "date", "me@x.com", "", "hello"⟩

/-- A concrete oracle whose generation call fails exactly on call index 1
and whose persist call always succeeds. -/
def sampleOracle : StepOracle where
  gen := fun i _ =>
    if i = 1 then Except.error "boom" else Except.ok "reply text"
  persist := fun _ _ _ _ => Except.ok ()

/-- Witness for `C8`: empty `to_me`, one `cc_me` message. -/
theorem handle_draft_all_empty_witness :
    handle_draft_all sampleOracle "" ⟨[], [sampleMsg "9"]⟩
      = (HandlerOutput.noneToDo noDraftsText, 0, 0) :=
  handle_draft_all_empty sampleOracle "" ⟨[], [sampleMsg "9"]⟩ rfl

/-- Splitting a filter by a predicate and its negation covers the list. -/
theorem length_filter_split {α : Type} (p : α → Bool) (l : List α) :
    (l.filter p).length + (l.filter (fun a => ! p a)).length
      = l.length := by
  induction l with
  | nil => rfl
  | cons hd tl ih =>
    by_cases h : p hd = true
    · simp [List.filter_cons, h, ih]
      omega
    · simp only [Bool.not_eq_true] at h
      simp [List.filter_cons, h, ih]
      omega

/-- `C3`: whenever the `to_me` bucket is non-empty and exactly one
message's reply-generation-or-persist step fails, the handler still
returns a summary (it does not abort), that summary holds one status
entry per message, and exactly one of them is a failure entry while the
other `n - 1` are success entries. -/
theorem handle_draft_all_one_failure (o : StepOracle) (g : String)
    (emails : Buckets) (hne : emails.to_me ≠ [])
    (hone : (emails.to_me.enum.filter
        (fun p => stepFails o g p.1 p.2)).length = 1) :
    ∃ entries : List ResultEntry,
      (handle_draft_all o g emails).1
          = HandlerOutput.summary entries emails.cc_me.length
      ∧ entries.length = emails.to_me.length
      ∧ (entries.filter (fun e => ! isOkEntry e)).length = 1
      ∧ (entries.filter (fun e => isOkEntry e)).length
          = emails.to_me.length - 1 := by
  refine ⟨(emails.to_me.enum.map
      (fun p => processItem o g p.1 p.2)).map (fun x => x.1), ?_, ?_, ?_, ?_⟩
  · simp [handle_draft_all, hne]
  · simp [List.enum_length]
  · rw [List.map_map, List.filter_map, List.length_map]
    have : ((fun e => ! isOkEntry e) ∘ ((fun x => x.1) ∘
        (fun p : Nat × MailMessage => processItem o g p.1 p.2)))
        = fun p : Nat × MailMessage => stepFails o g p.1 p.2 := by
      funext p
      simp [Function.comp, isOkEntry_processItem]
    rw [this, hone]
  · rw [List.map_map, List.filter_map, List.length_map]
    have hcomp : ((fun e => isOkEntry e) ∘ ((fun x => x.1) ∘
        (fun p : Nat × MailMessage => processItem o g p.1 p.2)))
        = fun p : Nat × MailMessage => ! stepFails o g p.1 p.2 := by
      funext p
      simp [Function.comp, isOkEntry_processItem]
    rw [hcomp]
    have hsplit := length_filter_split
      (fun p : Nat × MailMessage => stepFails o g p.1 p.2)
      emails.to_me.enum
    rw [hone] at hsplit
    have hlen : emails.to_me.enum.length = emails.to_me.length :=
      List.enum_length
    omega

/-- Witness for `C3`: a 3-message batch in which only the second
message's generation call fails yields 2 success entries and 1 failure
entry. -/
theorem handle_draft_all_one_failure_witness :
    ∃ entries : List ResultEntry,
      (handle_draft_all sampleOracle ""
          ⟨[sampleMsg "1", sampleMsg "2", sampleMsg "3"], []⟩).1
          = HandlerOutput.summary entries
              (⟨[sampleMsg "1", sampleMsg "2", sampleMsg "3"], []⟩
                : Buckets).cc_me.length
      ∧ entries.length
          = (⟨[sampleMsg "1", sampleMsg "2", sampleMsg "3"], []⟩
              : Buckets).to_me.length
      ∧ (entries.filter (fun e => ! isOkEntry e)).length = 1
      ∧ (entries.filter (fun e => isOkEntry e)).length
          = (⟨[sampleMsg "1", sampleMsg "2", sampleMsg "3"], []⟩
              : Buckets).to_me.length - 1 :=
  handle_draft_all_one_failure sampleOracle ""
    ⟨[sampleMsg "1", sampleMsg "2", sampleMsg "3"], []⟩
    (by decide) (by decide)

/-- A structural element of a fetched document
(`google_docs_helper.py` lines 62-75): a paragraph holding a list of
paragraph elements (each with a text run content, or without one, which
the source skips), a table holding rows of cells whose content is again
structural content, or an element of any other kind (skipped by the
source, which only handles the `paragraph` and `table` keys). -/
inductive SElem where
  | paragraph (runs : List (Option String)) : SElem
  | table (rows : List (List (List SElem))) : SElem
  | unknown : SElem

mutual

/-- `GoogleDocsHelper._read_structural_elements`
(`google_docs_helper.py` lines 62-75): walk the elements in order,
concatenating the text-run contents of each paragraph and recursively
flattening each table cell's content, row by row, cell by cell. -/
def read_structural_elements : List SElem → String
  | [] => ""
  | e :: es => readElement e ++ read_structural_elements es

/-- One element of the walk: a paragraph contributes its runs, a table
its rows in order, anything else contributes nothing. -/
def readElement : SElem → String
  | SElem.paragraph runs => readRuns runs
  | SElem.table rows => readRows rows
  | SElem.unknown => ""

/-- The paragraph branch: concatenate the contents of the elements that
carry a text run, in order. -/
def readRuns : List (Option String) → String
  | [] => ""
  | some c :: rs => c ++ readRuns rs
  | none :: rs => readRuns rs

/-- The table branch: rows in order. -/
def readRows : List (List (List SElem)) → String
  | [] => ""
  | r :: rs => readCells r ++ readRows rs

/-- One table row: cells in order, each cell's content recursively
flattened. -/
def readCells : List (List SElem) → String
  | [] => ""
  | c :: cs => read_structural_elements c ++ readCells cs

end

mutual

/-- The text runs of a list of structural elements, in encounter order:
document body order, then for each table row-major order, then cell
content order, recursively. -/
def elemsRuns : List SElem → List String
  | [] => []
  | e :: es => elemRuns e ++ elemsRuns es

/-- The text runs of one structural element, in encounter order. -/
def elemRuns : SElem → List String
  | SElem.paragraph runs => runs.filterMap id
  | SElem.table rows => rowsRuns rows
  | SElem.unknown => []

/-- The text runs of a table's rows, in row-major encounter order. -/
def rowsRuns : List (List (List SElem)) → List String
  | [] => []
  | r :: rs => cellsRuns r ++ rowsRuns rs

/-- The text runs of one row's cells, in cell order. -/
def cellsRuns : List (List SElem) → List String
  | [] => []
  | c :: cs => elemsRuns c ++ cellsRuns cs

end

/-- Concatenation of a list of text runs into one string, in order. -/
def concatRuns : List String → String
  | [] => ""
  | s :: rest => s ++ concatRuns rest

/-- `concatRuns` distributes over list append. -/
theorem concatRuns_append (a b : List String) :
    concatRuns (a ++ b) = concatRuns a ++ concatRuns b := by
  induction a with
  | nil => simp [concatRuns]
  | cons hd tl ih => simp [concatRuns, ih, String.append_assoc]

/-- Concatenating runs collected from a paragraph's elements. -/
theorem readRuns_eq_join (runs : List (Option String)) :
    readRuns runs = concatRuns (runs.filterMap id) := by
  induction runs with
  | nil => rfl
  | cons hd tl ih =>
    cases hd with
    | none => simpa [readRuns] using ih
    | some c => simp [readRuns, ih, concatRuns]

mutual

/-- The flattener returns exactly the concatenation of the collected
runs, for element lists. -/
theorem read_structural_elements_eq_join (es : List SElem) :
    read_structural_elements es = concatRuns (elemsRuns es) := by
  match es with
  | [] => rfl
  | e :: rest =>
    rw [read_structural_elements, elemsRuns, concatRuns_append,
      readElement_eq_join e, read_structural_elements_eq_join rest]

/-- The flattener returns exactly the concatenation of the collected
runs, for one element. -/
theorem readElement_eq_join (e : SElem) :
    readElement e = concatRuns (elemRuns e) := by
  match e with
  | SElem.paragraph runs =>
    rw [readElement, elemRuns, readRuns_eq_join]
  | SElem.table rows =>
    rw [readElement, elemRuns, readRows_eq_join rows]
  | SElem.unknown => rfl

/-- The flattener returns exactly the concatenation of the collected
runs, for table rows. -/
theorem readRows_eq_join (rows : List (List (List SElem))) :
    readRows rows = concatRuns (rowsRuns rows) := by
  match rows with
  | [] => rfl
  | r :: rs =>
    rw [readRows, rowsRuns, concatRuns_append, readCells_eq_join r,
      readRows_eq_join rs]

/-- The flattener returns exactly the concatenation of the collected
runs, for one row's cells. -/
theorem readCells_eq_join (cells : List (List SElem)) :
    readCells cells = concatRuns (cellsRuns cells) := by
  match cells with
  | [] => rfl
  | c :: cs =>
    rw [readCells, cellsRuns, concatRuns_append,
      read_structural_elements_eq_join c, readCells_eq_join cs]

end

/-- `C7`: the flattener returns the concatenation of all text runs in
encounter order (body order, then per table row-major, then cell content
order, recursively), with nothing lost or duplicated; it is a
homomorphism for document concatenation; and on a paragraph followed by a
one-row two-cell table it yields the paragraph text, then the first
cell's text, then the second cell's text, in that order. -/
theorem read_structural_elements_spec :
    (∀ es : List SElem,
        read_structural_elements es = concatRuns (elemsRuns es))
  ∧ (∀ a b : List SElem,
        read_structural_elements (a ++ b)
          = read_structural_elements a ++ read_structural_elements b)
  ∧ read_structural_elements
        [SElem.paragraph [some "P"],
         SElem.table [[[SElem.paragraph [some "A"]],
                       [SElem.paragraph [some "B"]]]]]
      = "PAB" := by
  refine ⟨read_structural_elements_eq_join, ?_, ?_⟩
  · intro a b
    induction a with
    | nil => simp [read_structural_elements]
    | cons hd tl ih =>
      simp [read_structural_elements, ih, String.append_assoc]
  · rw [read_structural_elements, read_structural_elements,
      read_structural_elements, readElement, readElement, readRuns, readRuns,
      readRows, readRows, readCells, readCells, readCells,
      read_structural_elements, read_structural_elements,
      read_structural_elements, read_structural_elements,
      readElement, readElement, readRuns, readRuns, readRuns, readRuns]
    decide
